import Mathlib

/-!
Verification of the rescue-suitability scoring engine of the
SNHU-CS499 animal-shelter dashboard.

The repository ships two implementations of the animal controller in
`src/backend/controllers/animalController.js`:

* the first exports `getRescueCandidates` (namespace `V1` below);
* the second exports `getRescueSuitableAnimals` (namespace `V2` below).

Both are embedded here.  JavaScript numbers are modelled as rationals
(`ℚ`); all numeric literals in the code (0.35, 0.25, 0.2, 0.15, 0.3,
0.6, 0.7, 300000, …) are exactly representable, so rational arithmetic
agrees with the program on every value the claims mention.  A JavaScript
number that can be `NaN` (which arises in the first implementation, see
`V1.weightedScore`) is modelled as `Option ℚ`, with `none` standing for
`NaN`; `jsAdd`/`jsMul` propagate `none` and `jsGeB none _ = false`,
matching IEEE/JS semantics of arithmetic on and comparison with `NaN`.

The regex patterns appearing in the source (`/lab/i`, `/chesa/i`,
`/newf/i`, `/german/i`, `/mala/i`, `/old english/i`, `/husk/i`,
`/rott/i`, `/golden/i`, `/blood/i`, `/dober/i`) are all literal,
case-insensitive substring patterns with the single flag `i`; a pattern
is therefore embedded as its literal source text, `p.test(s)` as a
case-insensitive substring test, and `p.toString().slice(1, -2)` (resp.
`filter.breed.toString().slice(1, -2)`) as the literal source text
itself.

The persistence layer is out of scope (spec §1, §6): the controller
functions take the already-materialised animal collection as an
argument, and the process-wide score cache and the clock (`Date.now()`)
are passed and returned explicitly.
-/

/-- Embedding of `String.prototype.toLowerCase()`: lower-case every
character (character-wise, as the ASCII breed strings and pattern
literals of this code base require). -/
def jsToLower (s : String) : String := ⟨s.data.map Char.toLower⟩

/-- Embedding of `String.prototype.trim()`: remove whitespace from both
ends. -/
def jsTrim (s : String) : String :=
  ⟨((s.data.dropWhile Char.isWhitespace).reverse.dropWhile Char.isWhitespace).reverse⟩

/-- Substring test on character lists: `containsSeq needle hay` is `true`
iff `needle` occurs contiguously inside `hay`. -/
def containsSeq (needle : List Char) : List Char → Bool
  | [] => needle.isEmpty
  | c :: t => needle.isPrefixOf (c :: t) || containsSeq needle t

/-- A JavaScript regex literal of the shape `/text/i` as it appears in the
source: only the literal text between the delimiters is retained. -/
structure RegexPattern where
  source : String
deriving DecidableEq, Repr

/-- Embedding of `p.test(s)` for a case-insensitive literal pattern `p`:
the lower-cased literal occurs as a substring of the lower-cased input. -/
def regexTestCI (p : RegexPattern) (s : String) : Bool :=
  containsSeq (jsToLower p.source).toList (jsToLower s).toList

/-- An animal record as stored by the persistence layer
(`src/backend/models/Animal.js`).  Only the fields the scoring engine
reads are modelled.  `breed` is an `Option` so that a record missing its
required `breed` field (claim C2) can be expressed; `medicalHistory` is
an `Option` because the field is optional (spec §3).  The second
implementation reads the age and sex of the record through the property
names `animal.age` and `animal.sex`; they denote the same stored age
(in weeks) and sex-upon-outcome of the record, modelled once as
`age_upon_outcome_in_weeks` and `sex_upon_outcome`. -/
structure Animal where
  mongoId : Nat
  breed : Option String
  sex_upon_outcome : String
  age_upon_outcome_in_weeks : ℚ
  medicalHistory : Option (List String)
deriving DecidableEq, Repr

/-- Errors thrown by the controller code. -/
inductive JsError where
  /-- The `ValidationError` class of the first implementation, carrying
  its message. -/
  | validationError (msg : String)
  /-- The `ScoringError` class of the first implementation (thrown by the
  `catch` block of `calculateRescueScore`; its wrapped message is
  elided). -/
  | scoringError
  /-- A JavaScript `TypeError` from calling a method on `undefined`
  (message elided). -/
  | typeError
  /-- A plain `new Error(msg)`. -/
  | genericError (msg : String)
deriving DecidableEq, Repr

/-- JavaScript addition where `none` models `NaN`. -/
def jsAdd : Option ℚ → Option ℚ → Option ℚ
  | some a, some b => some (a + b)
  | _, _ => none

/-- JavaScript multiplication where `none` models `NaN`
(`x * undefined` is also `NaN`, hence the `none` weight case). -/
def jsMul : Option ℚ → Option ℚ → Option ℚ
  | some a, some b => some (a * b)
  | _, _ => none

/-- JavaScript `x >= t` where `x` may be `NaN` (`none`): any comparison
with `NaN` is `false`. -/
def jsGeB : Option ℚ → ℚ → Bool
  | some v, t => decide (t ≤ v)
  | none, _ => false

/-- An association-list model of a JavaScript `Map` with string keys:
`set` replaces in place or appends, `get` returns the stored value. -/
def Cache (β : Type) : Type := List (String × β)

/-- Empty cache (fresh process state). -/
def Cache.empty {β : Type} : Cache β := []

/-- Embedding of `Map.prototype.get`. -/
def cacheGet {β : Type} : Cache β → String → Option β
  | [], _ => none
  | (k', v') :: rest, k => if k' == k then some v' else cacheGet rest k

/-- Embedding of `Map.prototype.set`. -/
def cacheSet {β : Type} : Cache β → String → β → Cache β
  | [], k, v => [(k, v)]
  | (k', v') :: rest, k, v =>
    if k' == k then (k, v) :: rest else (k', v') :: cacheSet rest k v

/-- Threads the shared cache through `animals.map(async animal => …)`:
each callback body is synchronous (no `await` precedes its cache
operations), so the callbacks run to completion in array order. -/
def mapWithCache {β γ : Type} (f : Animal → Cache γ → β × Cache γ) :
    List Animal → Cache γ → List β × Cache γ
  | [], c => ([], c)
  | a :: as, c =>
    let rc := f a c
    let rest := mapWithCache f as rc.2
    (rc.1 :: rest.1, rest.2)

/-- Embedding of `Promise.all` over settled per-record results: the
overall promise rejects with the first rejection, otherwise resolves to
the list of values. -/
def collectResults {β : Type} : List (Except JsError β) → Except JsError (List β)
  | [] => .ok []
  | .error e :: _ => .error e
  | .ok v :: rest =>
    match collectResults rest with
    | .error e => .error e
    | .ok vs => .ok (v :: vs)

/-- The cache key `` `${animal._id}-${rescueType}` `` used by both
implementations. -/
def cacheKey (animal : Animal) (rescueType : String) : String :=
  toString animal.mongoId ++ "-" ++ rescueType

/-- Descending order on a rational sort key `κ`: the order imposed by the
JavaScript comparator `(a, b) => κ(b) - κ(a)`. -/
def descKey {α : Type} (κ : α → ℚ) (a b : α) : Prop := κ b ≤ κ a

instance {α : Type} (κ : α → ℚ) : DecidableRel (descKey κ) := fun a b =>
  inferInstanceAs (Decidable (κ b ≤ κ a))

instance {α : Type} (κ : α → ℚ) : IsTotal α (descKey κ) :=
  ⟨fun a b => le_total (κ b) (κ a)⟩

instance {α : Type} (κ : α → ℚ) : IsTrans α (descKey κ) :=
  ⟨fun _ _ _ hab hbc => le_trans hbc hab⟩

namespace V1

/-- One entry of the `RESCUE_CONFIG` table of the first implementation. -/
structure RescueConfigEntry where
  breeds : List RegexPattern
  sex : String
  ageRange : ℚ × ℚ
deriving DecidableEq, Repr

/-- The `RESCUE_CONFIG` constant: a string-keyed object (property lookup
compares the key against each declared property name), `none` (JavaScript
`undefined`) for any key not in the table. -/
def RESCUE_CONFIG (rescueType : String) : Option RescueConfigEntry :=
  if rescueType = "Water" then
    some ⟨[⟨"lab"⟩, ⟨"chesa"⟩, ⟨"newf"⟩], "Intact Female", (26, 156)⟩
  else if rescueType = "Mountain" then
    some ⟨[⟨"german"⟩, ⟨"mala"⟩, ⟨"old english"⟩, ⟨"husk"⟩, ⟨"rott"⟩],
      "Intact Male", (26, 156)⟩
  else if rescueType = "Disaster" then
    some ⟨[⟨"german"⟩, ⟨"golden"⟩, ⟨"blood"⟩, ⟨"dober"⟩, ⟨"rott"⟩],
      "Intact Male", (20, 300)⟩
  else none

/-- The `SCORING_WEIGHTS` constant of the first implementation, as the
string-keyed object it is in JavaScript: its keys are `breedMatch`,
`ageMatch`, `sexMatch` and `healthScore`; any other key (in particular
`healthMatch`, which `getRescueCandidates` looks up) yields `undefined`
(`none`). -/
def SCORING_WEIGHTS (key : String) : Option ℚ :=
  if key = "breedMatch" then some (35/100)
  else if key = "ageMatch" then some (25/100)
  else if key = "sexMatch" then some (20/100)
  else if key = "healthScore" then some (20/100)
  else none

/-- The `CACHE_CONFIG.TTL` constant (5 minutes in milliseconds). -/
def CACHE_TTL : ℚ := 300000

/-- The `CACHE_CONFIG.MIN_SCORE` constant. -/
def MIN_SCORE : ℚ := 6/10

/-- The MongoDB query object built by `buildRescueQuery` (consumed only
by the out-of-scope persistence layer). -/
structure MongoQuery where
  orBreeds : List RegexPattern
  sex_upon_outcome : String
  ageGte : ℚ
  ageLte : ℚ
deriving DecidableEq, Repr

/-- Embedding of `buildRescueQuery`: throws `ValidationError` for a
rescue type absent from `RESCUE_CONFIG`. -/
def buildRescueQuery (rescueType : String) : Except JsError MongoQuery :=
  match RESCUE_CONFIG rescueType with
  | none => .error (.validationError ("Invalid rescue type: " ++ rescueType))
  | some config => .ok ⟨config.breeds, config.sex, config.ageRange.1, config.ageRange.2⟩

/-- The per-condition deductions table of `calculateHealthScore`
(`deductions[condition] || 0` for an unknown tag). -/
def deduction (condition : String) : ℚ :=
  if condition = "surgery" then 2/10
  else if condition = "chronic" then 3/10
  else if condition = "injury" then 15/100
  else 0

/-- Embedding of `calculateHealthScore` of the first implementation.
The default parameter `medicalHistory = []` is applied at the call site
(`calculateRescueScore` passes `animal.medicalHistory.getD []`). -/
def calculateHealthScore (medicalHistory : List String) : ℚ :=
  let totalDeduction := medicalHistory.foldl (fun sum condition => sum + deduction condition) 0
  max 0 (1 - totalDeduction)

/-- Embedding of `calculateBreedMatch` of the first implementation:
normalise to lower case and trim, return 1 on an exact match against a
pattern literal, 0.7 on a partial (regex) match, else 0. -/
def calculateBreedMatch (breed : String) (breedPatterns : List RegexPattern) : ℚ :=
  let cleanBreed := jsTrim (jsToLower breed)
  let exactMatch := breedPatterns.any fun pattern =>
    regexTestCI pattern cleanBreed && cleanBreed == pattern.source
  if exactMatch then 1
  else if breedPatterns.any (fun pattern => regexTestCI pattern cleanBreed) then 7/10
  else 0

/-- Embedding of `calculateAgeMatch` of the first implementation. -/
def calculateAgeMatch (age : ℚ) (idealRange : ℚ × ℚ) : ℚ :=
  if age ≥ idealRange.1 ∧ age ≤ idealRange.2 then 1
  else
    let distance := if age < idealRange.1 then idealRange.1 - age else age - idealRange.2
    max 0 (1 - distance / idealRange.1)

/-- The object returned by `calculateRescueScore` (keys in insertion
order: breed, age, sex, health). -/
structure RescueScores where
  breed : ℚ
  age : ℚ
  sex : ℚ
  health : ℚ
deriving DecidableEq, Repr

/-- Embedding of `calculateRescueScore`: reading `config.breeds` of an
`undefined` config, or calling `toLowerCase` on an `undefined` breed,
raises a `TypeError` that the surrounding `try`/`catch` rethrows as a
`ScoringError`. -/
def calculateRescueScore (animal : Animal) (rescueType : String) :
    Except JsError RescueScores :=
  match RESCUE_CONFIG rescueType with
  | none => .error .scoringError
  | some config =>
    match animal.breed with
    | none => .error .scoringError
    | some breed =>
      .ok { breed := calculateBreedMatch breed config.breeds
            age := calculateAgeMatch animal.age_upon_outcome_in_weeks config.ageRange
            sex := if animal.sex_upon_outcome == config.sex then 1 else 0
            health := calculateHealthScore (animal.medicalHistory.getD []) }

/-- The entries of the scores object in object-literal insertion order,
as produced by `Object.entries(scores)`. -/
def scoreEntries (s : RescueScores) : List (String × ℚ) :=
  [("breed", s.breed), ("age", s.age), ("sex", s.sex), ("health", s.health)]

/-- Embedding of the weighted-total reduce of `getRescueCandidates`:
`Object.entries(scores).reduce((total, [key, value]) => total + value *
SCORING_WEIGHTS[key + "Match"], 0)`.  The lookup key for the `health`
entry is `healthMatch`, which is not a key of `SCORING_WEIGHTS`, so the
multiplication is by `undefined` and the running total becomes `NaN`
(`none`). -/
def weightedScore (s : RescueScores) : Option ℚ :=
  (scoreEntries s).foldl
    (fun total kv => jsAdd total (jsMul (some kv.2) (SCORING_WEIGHTS (kv.1 ++ "Match"))))
    (some 0)

/-- The result object cached and returned per animal by
`getRescueCandidates`: the spread animal fields plus `rescueScore`,
`scoreComponents` and `timestamp`.  On a live cache hit the code returns
`{ ...animal.toObject(), ...cached }`; `cached` holds every one of those
keys (it was built by the same spread), so the hit result is the cached
object itself, including the animal-field snapshot taken when it was
stored. -/
structure ScoredAnimal1 where
  animal : Animal
  rescueScore : Option ℚ
  scoreComponents : RescueScores
  timestamp : ℚ
deriving DecidableEq, Repr

/-- Per-animal body of the `animals.map(async animal => …)` callback of
`getRescueCandidates`. -/
def scoreOne (rescueType : String) (now : ℚ) (animal : Animal)
    (cache : Cache ScoredAnimal1) : Except JsError ScoredAnimal1 × Cache ScoredAnimal1 :=
  let key := cacheKey animal rescueType
  match cacheGet cache key with
  | some cached =>
    if now - cached.timestamp < CACHE_TTL then (.ok cached, cache)
    else
      match calculateRescueScore animal rescueType with
      | .error e => (.error e, cache)
      | .ok scores =>
        let result : ScoredAnimal1 :=
          ⟨animal, weightedScore scores, scores, now⟩
        (.ok result, cacheSet cache key result)
  | none =>
    match calculateRescueScore animal rescueType with
    | .error e => (.error e, cache)
    | .ok scores =>
      let result : ScoredAnimal1 :=
        ⟨animal, weightedScore scores, scores, now⟩
      (.ok result, cacheSet cache key result)

/-- Embedding of the final filter-and-sort stage of
`getRescueCandidates`.  `Array.prototype.sort` is stable (ECMAScript
2019), and a stable sort under the comparator `(a, b) => b.rescueScore -
a.rescueScore` is exactly insertion sort under the descending order on
`rescueScore`.  Every element reaching the sort has passed the `>= 0.6`
filter and therefore carries a numeric (non-`NaN`) score, on which
`getD` is the identity. -/
def filterSort1 (scoredAnimals : List ScoredAnimal1) : List ScoredAnimal1 :=
  (scoredAnimals.filter fun animal => jsGeB animal.rescueScore MIN_SCORE).insertionSort
    (descKey fun animal => animal.rescueScore.getD 0)

/-- Embedding of `getRescueCandidates`.  The `Animal.find(query)` fetch
is out of scope; the already-materialised collection is a parameter. -/
def getRescueCandidates (rescueType : String) (animals : List Animal)
    (cache : Cache ScoredAnimal1) (now : ℚ) :
    Except JsError (List ScoredAnimal1) × Cache ScoredAnimal1 :=
  match buildRescueQuery rescueType with
  | .error e => (.error e, cache)
  | .ok _query =>
    let mapped := mapWithCache (scoreOne rescueType now) animals cache
    match collectResults mapped.1 with
    | .error e => (.error e, mapped.2)
    | .ok scored => (.ok (filterSort1 scored), mapped.2)

end V1

namespace V2

/-- The `RESCUE_TYPE_FILTERS` constant of the second implementation
(each element is an object `{ breed: /…/i }`, retained as the pattern). -/
def RESCUE_TYPE_FILTERS (rescueType : String) : Option (List RegexPattern) :=
  if rescueType = "Water" then some [⟨"lab"⟩, ⟨"chesa"⟩, ⟨"newf"⟩]
  else if rescueType = "Mountain" then
    some [⟨"german"⟩, ⟨"mala"⟩, ⟨"old english"⟩, ⟨"husk"⟩, ⟨"rott"⟩]
  else if rescueType = "Disaster" then
    some [⟨"german"⟩, ⟨"golden"⟩, ⟨"blood"⟩, ⟨"dober"⟩, ⟨"rott"⟩]
  else none

/-- One entry of the `RESCUE_TYPE_REQUIREMENTS` table. -/
structure Requirements where
  sex : String
  minAge : ℚ
  maxAge : ℚ
deriving DecidableEq, Repr

/-- The `RESCUE_TYPE_REQUIREMENTS` constant. -/
def RESCUE_TYPE_REQUIREMENTS (rescueType : String) : Option Requirements :=
  if rescueType = "Water" then some ⟨"Intact Female", 26, 156⟩
  else if rescueType = "Mountain" then some ⟨"Intact Male", 26, 156⟩
  else if rescueType = "Disaster" then some ⟨"Intact Male", 20, 300⟩
  else none

/-- The `CACHE_TTL` constant (5 * 60 * 1000 milliseconds). -/
def CACHE_TTL : ℚ := 300000

/-- Embedding of `calculateHealthScore` of the second implementation.
An absent `medicalHistory` is falsy, so no deduction applies; the result
is clamped by `Math.max(0, Math.min(1, score))`. -/
def calculateHealthScore (animal : Animal) : ℚ :=
  let score : ℚ := 1
  let score :=
    match animal.medicalHistory with
    | none => score
    | some mh =>
      let score := if mh.contains "surgery" then score - 2/10 else score
      let score := if mh.contains "chronic" then score - 3/10 else score
      if mh.contains "injury" then score - 15/100 else score
  max 0 (min 1 score)

/-- Embedding of `calculateBreedMatchScore` of the second
implementation: exact match compares the lower-cased pattern literal
with the lower-cased breed (no trimming); partial match tests the
pattern against the lower-cased breed. -/
def calculateBreedMatchScore (breed : String) (rescueType : String) : ℚ :=
  match RESCUE_TYPE_FILTERS rescueType with
  | none => 0
  | some filters =>
    let exactMatch := filters.any fun filter => jsToLower filter.source == jsToLower breed
    if exactMatch then 1
    else if filters.any (fun filter => regexTestCI filter (jsToLower breed)) then 7/10
    else 0

/-- Embedding of `calculateAgeMatchScore` of the second implementation. -/
def calculateAgeMatchScore (age : ℚ) (requirements : Option Requirements) : ℚ :=
  match requirements with
  | none => 0
  | some req =>
    if age ≥ req.minAge ∧ age ≤ req.maxAge then 1
    else
      let distanceFromRange := if age < req.minAge then req.minAge - age else age - req.maxAge
      max 0 (1 - distanceFromRange / req.minAge)

/-- Embedding of `calculateSexMatchScore` of the second implementation. -/
def calculateSexMatchScore (sex : String) (requirements : Option Requirements) : ℚ :=
  match requirements with
  | none => 0
  | some req => if sex == req.sex then 1 else 0

/-- The `scoreDetails` object attached to a freshly computed result. -/
structure ScoreDetails where
  breedScore : ℚ
  ageScore : ℚ
  sexScore : ℚ
  healthScore : ℚ
deriving DecidableEq, Repr

/-- A cache entry of `rescueScoresCache`: `{ score, timestamp }`. -/
structure CacheEntry2 where
  score : ℚ
  timestamp : ℚ
deriving DecidableEq, Repr

/-- The per-animal result object of `getRescueSuitableAnimals`: the
spread animal fields, `rescueScore`, and — only on the freshly computed
path — the `scoreDetails` breakdown (`none` models the absent
property). -/
structure ScoredAnimal2 where
  animal : Animal
  rescueScore : ℚ
  scoreDetails : Option ScoreDetails
deriving DecidableEq, Repr

/-- The four sub-scores computed on the fresh path of
`getRescueSuitableAnimals` for an animal whose breed is present. -/
def freshScores (rescueType : String) (breed : String) (animal : Animal) : ScoreDetails :=
  { breedScore := calculateBreedMatchScore breed rescueType
    ageScore := calculateAgeMatchScore animal.age_upon_outcome_in_weeks
      (RESCUE_TYPE_REQUIREMENTS rescueType)
    sexScore := calculateSexMatchScore animal.sex_upon_outcome
      (RESCUE_TYPE_REQUIREMENTS rescueType)
    healthScore := calculateHealthScore animal }

/-- The weighted total of the fresh path: `breedScore * 0.35 + ageScore *
0.25 + sexScore * 0.20 + healthScore * 0.20` (the second implementation
accesses the weights by their declared field names, so no lookup can
miss). -/
def freshTotal (rescueType : String) (breed : String) (animal : Animal) : ℚ :=
  let d := freshScores rescueType breed animal
  d.breedScore * (35/100) + d.ageScore * (25/100) + d.sexScore * (20/100) +
    d.healthScore * (20/100)

/-- Per-animal body of the `animals.map(async (animal) => …)` callback
of `getRescueSuitableAnimals`: live cache hit returns only the cached
`rescueScore` (no `scoreDetails`); otherwise the four sub-scores and the
weighted total are computed, cached with the current timestamp, and
returned together with `scoreDetails`.  Calling `toLowerCase` on an
`undefined` breed raises a `TypeError` before the cache write. -/
def scoreAnimal (rescueType : String) (now : ℚ) (animal : Animal)
    (cache : Cache CacheEntry2) : Except JsError ScoredAnimal2 × Cache CacheEntry2 :=
  let key := cacheKey animal rescueType
  let live : Option CacheEntry2 :=
    match cacheGet cache key with
    | some cached => if now - cached.timestamp < CACHE_TTL then some cached else none
    | none => none
  match live with
  | some cached => (.ok ⟨animal, cached.score, none⟩, cache)
  | none =>
    match animal.breed with
    | none => (.error .typeError, cache)
    | some breed =>
      let totalScore := freshTotal rescueType breed animal
      (.ok ⟨animal, totalScore, some (freshScores rescueType breed animal)⟩,
       cacheSet cache key ⟨totalScore, now⟩)

/-- Embedding of the final `.filter(animal => animal.rescueScore >=
0.6).sort((a, b) => b.rescueScore - a.rescueScore)` stage.
`Array.prototype.sort` is stable (ECMAScript 2019), and a stable sort
under this comparator is exactly insertion sort under the descending
order on `rescueScore`. -/
def filterSort (scoredAnimals : List ScoredAnimal2) : List ScoredAnimal2 :=
  (scoredAnimals.filter fun animal => decide ((6/10 : ℚ) ≤ animal.rescueScore)).insertionSort
    (descKey fun animal => animal.rescueScore)

/-- Embedding of `getRescueSuitableAnimals`.  The `try`/`catch` wrapper
logs and rethrows, so an error inside the body propagates unchanged.
The `Animal.find(query)` fetch is out of scope; the collection is a
parameter. -/
def getRescueSuitableAnimals (rescueType : String) (animals : List Animal)
    (cache : Cache CacheEntry2) (now : ℚ) :
    Except JsError (List ScoredAnimal2) × Cache CacheEntry2 :=
  match RESCUE_TYPE_REQUIREMENTS rescueType with
  | none => (.error (.genericError "Invalid rescue type"), cache)
  | some _ =>
    let mapped := mapWithCache (scoreAnimal rescueType now) animals cache
    match collectResults mapped.1 with
    | .error e => (.error e, mapped.2)
    | .ok scored => (.ok (filterSort scored), mapped.2)

end V2

/-! ## Specification-side definitions

The following functions are written from the words of the specification
(spec §4.2–§4.5 and §8), to be compared with the source-derived
definitions above. -/

/-- Age score as the specification words it (§4.3): `1` inside the
inclusive range, otherwise `max(0, 1 - distance / min)` with `distance`
the gap to the violated bound; the denominator is the range minimum. -/
def specAgeScore (age minAge maxAge : ℚ) : ℚ :=
  if minAge ≤ age ∧ age ≤ maxAge then 1
  else max 0 (1 - (if age < minAge then minAge - age else age - maxAge) / minAge)

/-- Breed score as the specification words it (§4.2), parameterised by
the normalisation step: `1` if the normalised breed equals a pattern's
literal term character for character, else `0.7` if some pattern matches
the normalised breed, else `0`. -/
def specBreedScore (normalize : String → String) (breed : String)
    (patterns : List RegexPattern) : ℚ :=
  let nb := normalize breed
  if patterns.any (fun p => nb == p.source) then 1
  else if patterns.any (fun p => regexTestCI p nb) then 7/10
  else 0

/-- Health score as the specification words it (§4.5): start from `1`,
subtract `0.2` for `surgery`, `0.3` for `chronic`, `0.15` for `injury`
(membership-based, hence order-independent), clamp to `[0, 1]`. -/
def specHealthScore (conditions : List String) : ℚ :=
  max 0 (min 1 (1 - ((if "surgery" ∈ conditions then 2/10 else 0) +
    (if "chronic" ∈ conditions then 3/10 else 0) +
    (if "injury" ∈ conditions then 15/100 else 0))))

/-! ## Concrete records used by witnesses and counterexamples -/

/-- A Water-rescue animal that matches every criterion perfectly: breed
literally equal to the `/lab/i` pattern term, matching sex, age inside
`[26, 156]`, no medical history. -/
def perfectWaterAnimal : Animal := ⟨1, some "lab", "Intact Female", 30, none⟩

/-- A record missing its required `breed` field (spec §7,
`MalformedAnimalRecord`). -/
def noBreedAnimal : Animal := ⟨2, none, "Intact Female", 30, none⟩

/-- A Mountain-rescue animal that matches every criterion perfectly. -/
def mountainPerfectAnimal : Animal := ⟨3, some "german", "Intact Male", 52, none⟩

/-- The record of `perfectWaterAnimal` after an imagined mutation of
every scorable field (same `_id`). -/
def mutatedWaterAnimal : Animal := ⟨1, some "poodle", "Unknown", 500, some ["chronic"]⟩

/-- A minimal scored record for exercising the filter-and-sort stage. -/
def mkScored (i : Nat) (score : ℚ) : V2.ScoredAnimal2 :=
  ⟨⟨i, none, "", 0, none⟩, score, none⟩

deriving instance DecidableEq for Except

/-! ## Proofs -/

attribute [local semireducible] Rat.mul Rat.inv Rat.add Rat.sub

/-- Helper: the age scorer of the first implementation computes exactly
the specification formula. -/
theorem calculateAgeMatch_eq_spec (age minAge maxAge : ℚ) :
    V1.calculateAgeMatch age (minAge, maxAge) = specAgeScore age minAge maxAge := rfl

/-- Helper: the age scorer of the second implementation computes exactly
the specification formula. -/
theorem calculateAgeMatchScore_eq_spec (age minAge maxAge : ℚ) (sx : String) :
    V2.calculateAgeMatchScore age (some ⟨sx, minAge, maxAge⟩) =
      specAgeScore age minAge maxAge := rfl

/-- Helper: an unknown rescue type has no `RESCUE_CONFIG` entry. -/
theorem RESCUE_CONFIG_eq_none (rescueType : String) (h1 : rescueType ≠ "Water")
    (h2 : rescueType ≠ "Mountain") (h3 : rescueType ≠ "Disaster") :
    V1.RESCUE_CONFIG rescueType = none := by
  unfold V1.RESCUE_CONFIG
  rw [if_neg h1, if_neg h2, if_neg h3]

/-- Helper: an unknown rescue type has no `RESCUE_TYPE_REQUIREMENTS`
entry. -/
theorem RESCUE_TYPE_REQUIREMENTS_eq_none (rescueType : String) (h1 : rescueType ≠ "Water")
    (h2 : rescueType ≠ "Mountain") (h3 : rescueType ≠ "Disaster") :
    V2.RESCUE_TYPE_REQUIREMENTS rescueType = none := by
  unfold V2.RESCUE_TYPE_REQUIREMENTS
  rw [if_neg h1, if_neg h2, if_neg h3]

/-- C1: the claim states that the composite score returned by the
candidate-retrieval operation equals `0.35*breed + 0.25*age + 0.20*sex +
0.20*health`, and is exactly `1.0` for a perfect match.  The second
implementation does satisfy this, but the first does not: its reduce
looks the health weight up under the key `healthMatch` while the
`SCORING_WEIGHTS` object declares it under `healthScore`, so the lookup
yields `undefined` and the total degenerates to `NaN` (`none`); the
perfectly matching animal is then even dropped by the `>= 0.6` filter.
This theorem evaluates both implementations at the failing input. -/
theorem c1_composite_weight_lookup :
    V1.calculateRescueScore perfectWaterAnimal "Water" = .ok ⟨1, 1, 1, 1⟩ ∧
    V1.SCORING_WEIGHTS "healthMatch" = none ∧
    V1.weightedScore ⟨1, 1, 1, 1⟩ = none ∧
    (V1.getRescueCandidates "Water" [perfectWaterAnimal] Cache.empty 0).1 = .ok [] ∧
    V2.freshTotal "Water" "lab" perfectWaterAnimal =
      1 * (35/100) + 1 * (25/100) + 1 * (20/100) + 1 * (20/100) ∧
    V2.freshTotal "Water" "lab" perfectWaterAnimal = 1 := by
  refine ⟨by decide, by decide, by decide, by decide, by decide, by decide⟩

/-- C3: both age scorers return `1` inside the inclusive range and
`max(0, 1 - distance/min)` outside it, the denominator being the range
minimum; the specification's four sample points evaluate as stated
(`score(10, [26,156]) = 1 - 16/26 = 5/13 ≈ 0.385`). -/
theorem c3_age_match_formula :
    (∀ (age minAge maxAge : ℚ) (sx : String),
      V1.calculateAgeMatch age (minAge, maxAge) = specAgeScore age minAge maxAge ∧
      V2.calculateAgeMatchScore age (some ⟨sx, minAge, maxAge⟩) =
        specAgeScore age minAge maxAge) ∧
    V1.calculateAgeMatch 26 (26, 156) = 1 ∧
    V1.calculateAgeMatch 156 (26, 156) = 1 ∧
    V1.calculateAgeMatch 10 (26, 156) = 5/13 ∧
    V1.calculateAgeMatch 200 (26, 156) = 0 ∧
    V2.calculateAgeMatchScore 10 (V2.RESCUE_TYPE_REQUIREMENTS "Water") = 5/13 := by
  refine ⟨fun age mn mx sx => ⟨calculateAgeMatch_eq_spec age mn mx,
    calculateAgeMatchScore_eq_spec age mn mx sx⟩, by decide, by decide, by decide,
    by decide, by decide⟩

/-- C7: for a category outside {Water, Mountain, Disaster} both
candidate-retrieval operations fail — the first with its
`ValidationError`, the second with `Error("Invalid rescue type")` — and
return the cache unchanged, having scored nothing. -/
theorem c7_unknown_category (rescueType : String) (h1 : rescueType ≠ "Water")
    (h2 : rescueType ≠ "Mountain") (h3 : rescueType ≠ "Disaster") :
    ∀ (animals : List Animal) (c1 : Cache V1.ScoredAnimal1) (c2 : Cache V2.CacheEntry2)
      (now : ℚ),
      V1.getRescueCandidates rescueType animals c1 now =
        (.error (.validationError ("Invalid rescue type: " ++ rescueType)), c1) ∧
      V2.getRescueSuitableAnimals rescueType animals c2 now =
        (.error (.genericError "Invalid rescue type"), c2) := by
  intro animals c1 c2 now
  constructor
  · unfold V1.getRescueCandidates V1.buildRescueQuery
    rw [RESCUE_CONFIG_eq_none rescueType h1 h2 h3]
  · unfold V2.getRescueSuitableAnimals
    rw [RESCUE_TYPE_REQUIREMENTS_eq_none rescueType h1 h2 h3]

/-- Witness for C7 at the concrete category `"Space"` of the
specification's example. -/
theorem c7_unknown_category_witness :
    V1.getRescueCandidates "Space" [perfectWaterAnimal] Cache.empty 0 =
      (.error (.validationError "Invalid rescue type: Space"), Cache.empty) ∧
    V2.getRescueSuitableAnimals "Space" [perfectWaterAnimal] Cache.empty 0 =
      (.error (.genericError "Invalid rescue type"), Cache.empty) :=
  c7_unknown_category "Space" (by decide) (by decide) (by decide)
    [perfectWaterAnimal] Cache.empty Cache.empty 0

/-- Helper: each entry of the deductions table is non-negative. -/
theorem deduction_nonneg (condition : String) : 0 ≤ V1.deduction condition := by
  unfold V1.deduction
  split_ifs <;> norm_num

/-- Helper: the deduction fold shifts over its initial value. -/
theorem foldl_deduction_shift (ms : List String) : ∀ init : ℚ,
    ms.foldl (fun sum condition => sum + V1.deduction condition) init =
      init + ms.foldl (fun sum condition => sum + V1.deduction condition) 0 := by
  induction ms with
  | nil => intro init; simp
  | cons c t ih =>
    intro init
    simp only [List.foldl_cons]
    rw [ih (init + V1.deduction c), ih (0 + V1.deduction c)]
    ring

/-- Helper: over a duplicate-free list of known condition tags, the
deduction fold equals the sum of the three membership indicators. -/
theorem sum_deduction_eq (ms : List String) (hnd : ms.Nodup)
    (hsub : ∀ c ∈ ms, c = "surgery" ∨ c = "chronic" ∨ c = "injury") :
    ms.foldl (fun sum condition => sum + V1.deduction condition) 0 =
      (if "surgery" ∈ ms then (2 : ℚ)/10 else 0) +
      (if "chronic" ∈ ms then (3 : ℚ)/10 else 0) +
      (if "injury" ∈ ms then (15 : ℚ)/100 else 0) := by
  induction ms with
  | nil => simp
  | cons c t ih =>
    have hnotmem : c ∉ t := (List.nodup_cons.mp hnd).1
    have ihv := ih (List.nodup_cons.mp hnd).2 (fun x hx => hsub x (List.mem_cons_of_mem c hx))
    rw [List.foldl_cons, foldl_deduction_shift, ihv]
    have e1 : ("chronic" : String) ≠ "surgery" := by decide
    have e2 : ("injury" : String) ≠ "surgery" := by decide
    have e3 : ("surgery" : String) ≠ "chronic" := by decide
    have e4 : ("injury" : String) ≠ "chronic" := by decide
    have e5 : ("surgery" : String) ≠ "injury" := by decide
    have e6 : ("chronic" : String) ≠ "injury" := by decide
    rcases hsub c (List.mem_cons_self c t) with hc | hc | hc <;> subst hc <;>
      simp only [List.mem_cons, eq_self_iff_true, true_or, if_true, e1, e2, e3, e4, e5, e6,
        false_or, hnotmem, if_false, V1.deduction, if_pos rfl] <;>
      split_ifs <;> norm_num [V1.deduction]

/-- Helper: the health scorer of the first implementation matches the
specification formula on duplicate-free condition sets. -/
theorem calculateHealthScore_eq_spec (ms : List String) (hnd : ms.Nodup)
    (hsub : ∀ c ∈ ms, c = "surgery" ∨ c = "chronic" ∨ c = "injury") :
    V1.calculateHealthScore ms = specHealthScore ms := by
  unfold V1.calculateHealthScore specHealthScore
  rw [sum_deduction_eq ms hnd hsub]
  have h : (0:ℚ) ≤ (if "surgery" ∈ ms then (2:ℚ)/10 else 0) +
      (if "chronic" ∈ ms then (3:ℚ)/10 else 0) +
      (if "injury" ∈ ms then (15:ℚ)/100 else 0) := by
    split_ifs <;> norm_num
  rw [min_eq_right (by linarith)]

/-- Helper: the health scorer of the second implementation matches the
specification formula whenever a medical history is present. -/
theorem calculateHealthScore2_eq_spec (a : Animal) (ms : List String)
    (h : a.medicalHistory = some ms) : V2.calculateHealthScore a = specHealthScore ms := by
  unfold V2.calculateHealthScore specHealthScore
  rw [h]
  by_cases hs : "surgery" ∈ ms <;> by_cases hc : "chronic" ∈ ms <;>
    by_cases hi : "injury" ∈ ms <;>
    simp only [List.contains, List.elem_iff, List.elem_eq_mem, hs, hc, hi, if_true, if_false,
      decide_eq_true_eq, eq_self_iff_true, not_false_iff] <;>
    norm_num [hs, hc, hi]

/-- Helper: an absent medical history scores `1` in the second
implementation. -/
theorem calculateHealthScore2_none (a : Animal) (h : a.medicalHistory = none) :
    V2.calculateHealthScore a = 1 := by
  unfold V2.calculateHealthScore
  rw [h]
  norm_num

/-- Helper: the specification health score only depends on membership,
hence is invariant under reordering. -/
theorem specHealthScore_perm (ms1 ms2 : List String) (hp : ms1.Perm ms2) :
    specHealthScore ms1 = specHealthScore ms2 := by
  simp [specHealthScore, hp.mem_iff]

/-- C5: over a duplicate-free set of condition tags drawn from
{surgery, chronic, injury}, both health scorers return `1` minus `0.2`
per `surgery`, `0.3` per `chronic`, `0.15` per `injury`, additively,
order-independently, clamped to `[0, 1]`; an absent medical history is
treated as no conditions (score `1`) and no scorer throws for it.  The
specification's sample values evaluate as stated. -/
theorem c5_health_deductions :
    (∀ ms : List String, ms.Nodup →
      (∀ c ∈ ms, c = "surgery" ∨ c = "chronic" ∨ c = "injury") →
      V1.calculateHealthScore ms = specHealthScore ms) ∧
    (∀ (a : Animal) (ms : List String), a.medicalHistory = some ms →
      V2.calculateHealthScore a = specHealthScore ms) ∧
    (∀ a : Animal, a.medicalHistory = none → V2.calculateHealthScore a = 1) ∧
    V1.calculateHealthScore [] = 1 ∧
    (∀ ms1 ms2 : List String, ms1.Perm ms2 → specHealthScore ms1 = specHealthScore ms2) ∧
    specHealthScore [] = 1 ∧
    specHealthScore ["surgery"] = 8/10 ∧
    specHealthScore ["surgery", "chronic"] = 1/2 ∧
    specHealthScore ["surgery", "chronic", "injury"] = 35/100 :=
  ⟨calculateHealthScore_eq_spec, calculateHealthScore2_eq_spec, calculateHealthScore2_none,
   by decide, specHealthScore_perm, by decide, by decide, by decide, by decide⟩

/-- Witness for C5: concrete duplicate-free histories, evaluated. -/
theorem c5_health_deductions_witness :
    V1.calculateHealthScore ["chronic", "surgery"] = specHealthScore ["chronic", "surgery"] ∧
    specHealthScore ["chronic", "surgery"] = 1/2 ∧
    V2.calculateHealthScore ⟨7, some "lab", "Intact Female", 30, some ["surgery", "injury"]⟩ =
      specHealthScore ["surgery", "injury"] ∧
    specHealthScore ["surgery", "injury"] = 13/20 :=
  ⟨c5_health_deductions.1 ["chronic", "surgery"] (by decide) (by decide), by decide,
   c5_health_deductions.2.1 ⟨7, some "lab", "Intact Female", 30, some ["surgery", "injury"]⟩
     ["surgery", "injury"] rfl, by decide⟩

/-- Helper: with a valid config and no live cache entry, a record with
an absent breed makes the per-record scoring of the first implementation
throw its `ScoringError` and leave the cache unchanged. -/
theorem scoreOne_breed_error (rescueType : String) (now : ℚ) (bad : Animal)
    (c : Cache V1.ScoredAnimal1) (hb : bad.breed = none)
    (hm : cacheGet c (cacheKey bad rescueType) = none)
    (cfg : V1.RescueConfigEntry) (hcfg : V1.RESCUE_CONFIG rescueType = some cfg) :
    V1.scoreOne rescueType now bad c = (.error .scoringError, c) := by
  unfold V1.scoreOne V1.calculateRescueScore
  simp only [hm, hcfg, hb]

/-- Helper: with no live cache entry, a record with an absent breed
makes the per-record scoring of the second implementation throw a
`TypeError` and leave the cache unchanged. -/
theorem scoreAnimal_breed_error (rescueType : String) (now : ℚ) (bad : Animal)
    (c : Cache V2.CacheEntry2) (hb : bad.breed = none)
    (hm : cacheGet c (cacheKey bad rescueType) = none) :
    V2.scoreAnimal rescueType now bad c = (.error .typeError, c) := by
  unfold V2.scoreAnimal
  simp only [hm, hb]

/-- C2 amended: the candidate-retrieval operations do not isolate a
malformed record.  A record missing its required `breed` (with no live
cache entry for it) makes the whole batch fail — the first
implementation with the `ScoringError` rethrown by
`calculateRescueScore`, the second with the propagated `TypeError` — so
no scores are returned for the well-formed records of the same
collection. -/
theorem c2_malformed_aborts_batch (rescueType : String) (bad : Animal) (rest : List Animal)
    (c1 : Cache V1.ScoredAnimal1) (c2 : Cache V2.CacheEntry2) (now : ℚ)
    (hb : bad.breed = none)
    (hm1 : cacheGet c1 (cacheKey bad rescueType) = none)
    (hm2 : cacheGet c2 (cacheKey bad rescueType) = none)
    (cfg : V1.RescueConfigEntry) (hcfg : V1.RESCUE_CONFIG rescueType = some cfg)
    (req : V2.Requirements) (hreq : V2.RESCUE_TYPE_REQUIREMENTS rescueType = some req) :
    (V1.getRescueCandidates rescueType (bad :: rest) c1 now).1 = .error .scoringError ∧
    (V2.getRescueSuitableAnimals rescueType (bad :: rest) c2 now).1 = .error .typeError := by
  constructor
  · unfold V1.getRescueCandidates V1.buildRescueQuery
    rw [hcfg]
    simp only [mapWithCache, scoreOne_breed_error rescueType now bad c1 hb hm1 cfg hcfg,
      collectResults]
  · unfold V2.getRescueSuitableAnimals
    rw [hreq]
    simp only [mapWithCache, scoreAnimal_breed_error rescueType now bad c2 hb hm2,
      collectResults]

/-- C2 counterexample: a batch holding one well-formed record and one
record with an absent breed does not yield the well-formed record's
score — the whole call fails, contradicting the claim that the bad
record alone is excluded while the rest are still scored. -/
theorem c2_counterexample :
    (V1.getRescueCandidates "Water" [perfectWaterAnimal, noBreedAnimal] Cache.empty 0).1 =
      .error .scoringError ∧
    (V2.getRescueSuitableAnimals "Water" [perfectWaterAnimal, noBreedAnimal] Cache.empty 0).1 =
      .error .typeError :=
  ⟨by decide, by decide⟩

/-- Witness for C2 amended at a concrete malformed batch. -/
theorem c2_malformed_aborts_batch_witness :
    (V1.getRescueCandidates "Water" [noBreedAnimal, perfectWaterAnimal] Cache.empty 0).1 =
      .error .scoringError ∧
    (V2.getRescueSuitableAnimals "Water" [noBreedAnimal, perfectWaterAnimal] Cache.empty 0).1 =
      .error .typeError :=
  c2_malformed_aborts_batch "Water" noBreedAnimal [perfectWaterAnimal] Cache.empty Cache.empty 0
    rfl rfl rfl ⟨[⟨"lab"⟩, ⟨"chesa"⟩, ⟨"newf"⟩], "Intact Female", (26, 156)⟩ (by decide)
    ⟨"Intact Female", 26, 156⟩ (by decide)

/-- Helper: a character list is a prefix of itself. -/
theorem isPrefixOf_self (l : List Char) : l.isPrefixOf l = true := by
  induction l with
  | nil => rfl
  | cons a t ih => simp [List.isPrefixOf, ih]

/-- Helper: a character list occurs inside itself. -/
theorem containsSeq_self (l : List Char) : containsSeq l l = true := by
  cases l with
  | nil => rfl
  | cons a t => simp [containsSeq, isPrefixOf_self]

/-- Helper: a string equal to a pattern's literal passes the pattern's
regex test. -/
theorem regexTestCI_of_eq (p : RegexPattern) (s : String) (h : s = p.source) :
    regexTestCI p s = true := by
  unfold regexTestCI
  rw [h]
  exact containsSeq_self _

/-- Helper: `List.any` respects predicates equal on the list's members. -/
theorem any_congr_mem {α : Type} (l : List α) (p q : α → Bool) (h : ∀ a ∈ l, p a = q a) :
    l.any p = l.any q := by
  induction l with
  | nil => rfl
  | cons a t ih =>
    simp only [List.any_cons, h a (List.mem_cons_self a t),
      ih (fun x hx => h x (List.mem_cons_of_mem a hx))]

/-- Helper: the breed scorer of the first implementation equals the
specification scorer under lower-case-and-trim normalisation (its extra
`pattern.test` conjunct in the exact-match check is redundant: a string
equal to the literal always passes the test). -/
theorem calculateBreedMatch_eq_spec (breed : String) (ps : List RegexPattern) :
    V1.calculateBreedMatch breed ps = specBreedScore (fun s => jsTrim (jsToLower s)) breed ps := by
  unfold V1.calculateBreedMatch specBreedScore
  have hfun : (fun p : RegexPattern =>
      regexTestCI p (jsTrim (jsToLower breed)) && (jsTrim (jsToLower breed) == p.source)) =
      (fun p : RegexPattern => jsTrim (jsToLower breed) == p.source) := by
    funext p
    by_cases h : jsTrim (jsToLower breed) = p.source
    · rw [regexTestCI_of_eq p _ h, Bool.true_and]
    · have hb : (jsTrim (jsToLower breed) == p.source) = false := beq_eq_false_iff_ne.mpr h
      rw [hb, Bool.and_false]
  simp only [hfun]

/-- Helper: the breed scorer of the second implementation equals the
specification scorer under lower-case-only normalisation, for pattern
sets whose literal terms are already lower case (as all of this code
base's are; the code lower-cases the literal term before comparing). -/
theorem calculateBreedMatchScore_eq_spec (breed rescueType : String) (fs : List RegexPattern)
    (hf : V2.RESCUE_TYPE_FILTERS rescueType = some fs)
    (hlc : ∀ p ∈ fs, jsToLower p.source = p.source) :
    V2.calculateBreedMatchScore breed rescueType = specBreedScore jsToLower breed fs := by
  unfold V2.calculateBreedMatchScore specBreedScore
  simp only [hf]
  have hany : (fs.any fun filter => jsToLower filter.source == jsToLower breed) =
      (fs.any fun p => jsToLower breed == p.source) := by
    refine any_congr_mem fs _ _ (fun p hp => ?_)
    rw [hlc p hp]
    exact Bool.beq_comm ..
  simp only [hany]

/-- C4 counterexample: the claim requires the breed scorer to trim
before the literal-equality check, so `" lab "` against the Water
patterns should score `1.0` (its trimmed, lower-cased form is
character-for-character the literal term `lab`); the second
implementation does not trim and returns `0.7`. -/
theorem c4_counterexample :
    jsTrim (jsToLower " lab ") = "lab" ∧
    V2.RESCUE_TYPE_FILTERS "Water" = some [⟨"lab"⟩, ⟨"chesa"⟩, ⟨"newf"⟩] ∧
    V2.calculateBreedMatchScore " lab " "Water" = 7/10 ∧
    (7/10 : ℚ) ≠ 1 :=
  ⟨by decide, by decide, by decide, by decide⟩

/-- C4 amended: the first implementation normalises with lower-case and
trim and scores exactly as claimed (1 on literal equality, 0.7 on a
pattern match, else 0, with the stated examples); the second
implementation normalises with lower-case only — no trimming — and
compares against the lower-cased literal term, so a breed equal to a
literal term up to surrounding whitespace scores only 0.7. -/
theorem c4_breed_match :
    (∀ (breed : String) (ps : List RegexPattern),
      V1.calculateBreedMatch breed ps =
        specBreedScore (fun s => jsTrim (jsToLower s)) breed ps) ∧
    (∀ (breed rescueType : String) (fs : List RegexPattern),
      V2.RESCUE_TYPE_FILTERS rescueType = some fs →
      (∀ p ∈ fs, jsToLower p.source = p.source) →
      V2.calculateBreedMatchScore breed rescueType = specBreedScore jsToLower breed fs) ∧
    V1.calculateBreedMatch "Labrador Retriever" [⟨"lab"⟩] = 7/10 ∧
    V1.calculateBreedMatch "lab" [⟨"lab"⟩] = 1 ∧
    V1.calculateBreedMatch "Poodle" [⟨"lab"⟩] = 0 ∧
    V1.calculateBreedMatch " lab " [⟨"lab"⟩] = 1 ∧
    V2.calculateBreedMatchScore "Labrador Retriever" "Water" = 7/10 ∧
    V2.calculateBreedMatchScore "lab" "Water" = 1 ∧
    V2.calculateBreedMatchScore "Poodle" "Water" = 0 :=
  ⟨calculateBreedMatch_eq_spec, calculateBreedMatchScore_eq_spec, by decide, by decide,
   by decide, by decide, by decide, by decide, by decide⟩

/-- Witness for C4 amended: the second implementation agrees with the
lower-case-only specification scorer at a concrete upper-case breed. -/
theorem c4_breed_match_witness :
    V2.calculateBreedMatchScore "LAB" "Water" =
      specBreedScore jsToLower "LAB" [⟨"lab"⟩, ⟨"chesa"⟩, ⟨"newf"⟩] ∧
    specBreedScore jsToLower "LAB" [⟨"lab"⟩, ⟨"chesa"⟩, ⟨"newf"⟩] = 1 :=
  ⟨c4_breed_match.2.1 "LAB" "Water" [⟨"lab"⟩, ⟨"chesa"⟩, ⟨"newf"⟩] (by decide) (by decide),
   by decide⟩

/-- Helper: the breed score of the first implementation is one of 0,
0.7, 1, hence within `[0, 1]`. -/
theorem calculateBreedMatch_bounds (breed : String) (ps : List RegexPattern) :
    0 ≤ V1.calculateBreedMatch breed ps ∧ V1.calculateBreedMatch breed ps ≤ 1 := by
  unfold V1.calculateBreedMatch
  dsimp only
  split_ifs <;> norm_num

/-- Helper: the breed score of the second implementation lies in
`[0, 1]`. -/
theorem calculateBreedMatchScore_bounds (breed rescueType : String) :
    0 ≤ V2.calculateBreedMatchScore breed rescueType ∧
      V2.calculateBreedMatchScore breed rescueType ≤ 1 := by
  unfold V2.calculateBreedMatchScore
  rcases V2.RESCUE_TYPE_FILTERS rescueType with _ | fs
  · norm_num
  · simp only []
    split_ifs <;> norm_num

/-- Helper: the specification age score lies in `[0, 1]` whenever the
range minimum is positive (outside the range the distance to the
violated bound is positive, so the subtracted term is non-negative). -/
theorem specAgeScore_bounds (age minAge maxAge : ℚ) (h : 0 < minAge) :
    0 ≤ specAgeScore age minAge maxAge ∧ specAgeScore age minAge maxAge ≤ 1 := by
  unfold specAgeScore
  split_ifs with h1 h2
  · norm_num
  · refine ⟨le_max_left 0 _, max_le (by norm_num) ?_⟩
    have hd : 0 ≤ (minAge - age) / minAge := div_nonneg (by linarith) (le_of_lt h)
    linarith
  · push_neg at h1
    have hma : maxAge < age := h1 (not_lt.mp h2)
    refine ⟨le_max_left 0 _, max_le (by norm_num) ?_⟩
    have hd : 0 ≤ (age - maxAge) / minAge := div_nonneg (by linarith) (le_of_lt h)
    linarith

/-- Helper: the deduction fold is non-negative. -/
theorem foldl_deduction_nonneg (ms : List String) :
    0 ≤ ms.foldl (fun sum condition => sum + V1.deduction condition) 0 := by
  induction ms with
  | nil => norm_num
  | cons c t ih =>
    rw [List.foldl_cons, foldl_deduction_shift]
    have := deduction_nonneg c
    linarith

/-- Helper: the health score of the first implementation lies in
`[0, 1]` (for any condition list, duplicates included). -/
theorem calculateHealthScore_bounds (ms : List String) :
    0 ≤ V1.calculateHealthScore ms ∧ V1.calculateHealthScore ms ≤ 1 := by
  unfold V1.calculateHealthScore
  refine ⟨le_max_left 0 _, max_le (by norm_num) ?_⟩
  have := foldl_deduction_nonneg ms
  linarith

/-- Helper: the health score of the second implementation lies in
`[0, 1]` by its explicit clamp. -/
theorem calculateHealthScore2_bounds (a : Animal) :
    0 ≤ V2.calculateHealthScore a ∧ V2.calculateHealthScore a ≤ 1 := by
  unfold V2.calculateHealthScore
  exact ⟨le_max_left 0 _, max_le (by norm_num) (min_le_left 1 _)⟩

/-- C9 amended: for a record whose required fields are present and a
valid category with positive minimum age bound, all four sub-scores lie
in `[0, 1]` in both implementations, and the composite of the second
implementation lies in `[0, 1]`.  The composite of the first
implementation is exempted: its weighted reduce degenerates to `NaN`
(see the counterexample), which is not a value of `[0, 1]`. -/
theorem c9_scores_bounds :
    (∀ (a : Animal) (t : String) (cfg : V1.RescueConfigEntry) (s : V1.RescueScores),
      V1.RESCUE_CONFIG t = some cfg → 0 < cfg.ageRange.1 →
      V1.calculateRescueScore a t = .ok s →
      (0 ≤ s.breed ∧ s.breed ≤ 1) ∧ (0 ≤ s.age ∧ s.age ≤ 1) ∧
      (0 ≤ s.sex ∧ s.sex ≤ 1) ∧ (0 ≤ s.health ∧ s.health ≤ 1)) ∧
    (∀ (t b : String) (a : Animal) (r : V2.Requirements),
      V2.RESCUE_TYPE_REQUIREMENTS t = some r → 0 < r.minAge →
      (0 ≤ (V2.freshScores t b a).breedScore ∧ (V2.freshScores t b a).breedScore ≤ 1) ∧
      (0 ≤ (V2.freshScores t b a).ageScore ∧ (V2.freshScores t b a).ageScore ≤ 1) ∧
      (0 ≤ (V2.freshScores t b a).sexScore ∧ (V2.freshScores t b a).sexScore ≤ 1) ∧
      (0 ≤ (V2.freshScores t b a).healthScore ∧ (V2.freshScores t b a).healthScore ≤ 1) ∧
      (0 ≤ V2.freshTotal t b a ∧ V2.freshTotal t b a ≤ 1)) := by
  constructor
  · intro a t cfg s hcfg hmin hok
    unfold V1.calculateRescueScore at hok
    rw [hcfg] at hok
    rcases hb : a.breed with _ | breed <;> rw [hb] at hok
    · exact absurd hok (by simp)
    · rcases cfg with ⟨breeds, sx, ⟨mn, mx⟩⟩
      simp only [] at hok
      have hs := (Except.ok.inj hok).symm
      subst hs
      refine ⟨calculateBreedMatch_bounds breed breeds, ?_, ?_, calculateHealthScore_bounds _⟩
      · rw [calculateAgeMatch_eq_spec]
        exact specAgeScore_bounds _ _ _ hmin
      · dsimp only
        split_ifs <;> norm_num
  · intro t b a r hreq hmin
    have hage : (V2.freshScores t b a).ageScore =
        specAgeScore a.age_upon_outcome_in_weeks r.minAge r.maxAge := by
      unfold V2.freshScores
      rw [hreq]
      rcases r with ⟨sx, mn, mx⟩
      exact calculateAgeMatchScore_eq_spec _ _ _ _
    have hb := calculateBreedMatchScore_bounds b t
    have ha := specAgeScore_bounds a.age_upon_outcome_in_weeks r.minAge r.maxAge hmin
    have hsx : 0 ≤ (V2.freshScores t b a).sexScore ∧ (V2.freshScores t b a).sexScore ≤ 1 := by
      unfold V2.freshScores V2.calculateSexMatchScore
      rcases V2.RESCUE_TYPE_REQUIREMENTS t with _ | req
      · norm_num
      · simp only []
        split_ifs <;> norm_num
    have hh := calculateHealthScore2_bounds a
    have hbr : (V2.freshScores t b a).breedScore = V2.calculateBreedMatchScore b t := rfl
    have hhe : (V2.freshScores t b a).healthScore = V2.calculateHealthScore a := rfl
    rw [hage]
    refine ⟨by rw [hbr]; exact hb, ha, hsx, by rw [hhe]; exact hh, ?_⟩
    unfold V2.freshTotal
    dsimp only
    rw [hage, hbr, hhe]
    constructor <;> nlinarith [hb.1, hb.2, ha.1, ha.2, hsx.1, hsx.2, hh.1, hh.2]

/-- C9 counterexample: for a perfectly matching Mountain animal the
first implementation computes the four sub-scores `1, 1, 1, 1` and a
composite `rescueScore` of `NaN` (`none`) — the weight lookup under the
key `healthMatch` misses the table — so the composite is not a rational
in `[0, 1]` as the claim requires. -/
theorem c9_counterexample :
    (V1.scoreOne "Mountain" 0 mountainPerfectAnimal Cache.empty).1 =
      .ok ⟨mountainPerfectAnimal, none, ⟨1, 1, 1, 1⟩, 0⟩ := by decide

/-- Witness for C9 amended at concrete perfect-match records. -/
theorem c9_scores_bounds_witness :
    ((0 ≤ (V1.RescueScores.mk 1 1 1 1).breed ∧ (V1.RescueScores.mk 1 1 1 1).breed ≤ 1) ∧
     (0 ≤ (V1.RescueScores.mk 1 1 1 1).age ∧ (V1.RescueScores.mk 1 1 1 1).age ≤ 1) ∧
     (0 ≤ (V1.RescueScores.mk 1 1 1 1).sex ∧ (V1.RescueScores.mk 1 1 1 1).sex ≤ 1) ∧
     (0 ≤ (V1.RescueScores.mk 1 1 1 1).health ∧ (V1.RescueScores.mk 1 1 1 1).health ≤ 1)) ∧
    (0 ≤ V2.freshTotal "Water" "lab" perfectWaterAnimal ∧
      V2.freshTotal "Water" "lab" perfectWaterAnimal ≤ 1) ∧
    V2.freshTotal "Water" "lab" perfectWaterAnimal = 1 :=
  ⟨c9_scores_bounds.1 mountainPerfectAnimal "Mountain"
      ⟨[⟨"german"⟩, ⟨"mala"⟩, ⟨"old english"⟩, ⟨"husk"⟩, ⟨"rott"⟩], "Intact Male", (26, 156)⟩
      ⟨1, 1, 1, 1⟩ (by decide) (by decide) (by decide),
   (c9_scores_bounds.2 "Water" "lab" perfectWaterAnimal ⟨"Intact Female", 26, 156⟩
      (by decide) (by decide)).2.2.2.2,
   by decide⟩

/-- Helper: looking a key up right after setting it yields the stored
value. -/
theorem cacheGet_cacheSet_same {β : Type} (c : Cache β) (k : String) (v : β) :
    cacheGet (cacheSet c k v) k = some v := by
  induction c with
  | nil => simp [cacheSet, cacheGet]
  | cons kv rest ih =>
    rcases kv with ⟨k1, v1⟩
    unfold cacheSet
    by_cases h : (k1 == k) = true
    · simp [h, cacheGet]
    · simp only [h, if_false, Bool.false_eq_true]
      unfold cacheGet
      simp [h, ih]

/-- Helper: on a live cache entry the second implementation returns the
cached score without `scoreDetails` and leaves the cache untouched. -/
theorem scoreAnimal_hit (t : String) (now : ℚ) (a : Animal) (c : Cache V2.CacheEntry2)
    (e : V2.CacheEntry2) (hget : cacheGet c (cacheKey a t) = some e)
    (hlt : now - e.timestamp < V2.CACHE_TTL) :
    V2.scoreAnimal t now a c = (.ok ⟨a, e.score, none⟩, c) := by
  unfold V2.scoreAnimal
  simp only [hget, if_pos hlt]

/-- Helper: on a cache miss the second implementation computes the four
sub-scores, returns them with the weighted total, and stores the total
with the current timestamp. -/
theorem scoreAnimal_miss (t : String) (now : ℚ) (a : Animal) (c : Cache V2.CacheEntry2)
    (b : String) (hget : cacheGet c (cacheKey a t) = none) (hb : a.breed = some b) :
    V2.scoreAnimal t now a c =
      (.ok ⟨a, V2.freshTotal t b a, some (V2.freshScores t b a)⟩,
       cacheSet c (cacheKey a t) ⟨V2.freshTotal t b a, now⟩) := by
  unfold V2.scoreAnimal
  simp only [hget, hb]

/-- Helper: an expired cache entry is ignored; the second implementation
recomputes and overwrites it. -/
theorem scoreAnimal_stale (t : String) (now : ℚ) (a : Animal) (c : Cache V2.CacheEntry2)
    (e : V2.CacheEntry2) (b : String) (hget : cacheGet c (cacheKey a t) = some e)
    (hge : V2.CACHE_TTL ≤ now - e.timestamp) (hb : a.breed = some b) :
    V2.scoreAnimal t now a c =
      (.ok ⟨a, V2.freshTotal t b a, some (V2.freshScores t b a)⟩,
       cacheSet c (cacheKey a t) ⟨V2.freshTotal t b a, now⟩) := by
  unfold V2.scoreAnimal
  simp only [hget, if_neg (not_lt.mpr hge), hb]

/-- Helper: on a live cache entry the first implementation returns the
cached result object wholesale and leaves the cache untouched. -/
theorem scoreOne_hit (t : String) (now : ℚ) (a : Animal) (c : Cache V1.ScoredAnimal1)
    (e : V1.ScoredAnimal1) (hget : cacheGet c (cacheKey a t) = some e)
    (hlt : now - e.timestamp < V1.CACHE_TTL) :
    V1.scoreOne t now a c = (.ok e, c) := by
  unfold V1.scoreOne
  simp only [hget, if_pos hlt]

/-- Helper: on a cache miss the first implementation computes, returns
and caches the full result object. -/
theorem scoreOne_miss (t : String) (now : ℚ) (a : Animal) (c : Cache V1.ScoredAnimal1)
    (s : V1.RescueScores) (hget : cacheGet c (cacheKey a t) = none)
    (hok : V1.calculateRescueScore a t = .ok s) :
    V1.scoreOne t now a c =
      (.ok ⟨a, V1.weightedScore s, s, now⟩,
       cacheSet c (cacheKey a t) ⟨a, V1.weightedScore s, s, now⟩) := by
  unfold V1.scoreOne
  simp only [hget, hok]

/-- Helper: an expired cache entry is ignored; the first implementation
recomputes and overwrites it. -/
theorem scoreOne_stale (t : String) (now : ℚ) (a : Animal) (c : Cache V1.ScoredAnimal1)
    (e : V1.ScoredAnimal1) (s : V1.RescueScores) (hget : cacheGet c (cacheKey a t) = some e)
    (hge : V1.CACHE_TTL ≤ now - e.timestamp) (hok : V1.calculateRescueScore a t = .ok s) :
    V1.scoreOne t now a c =
      (.ok ⟨a, V1.weightedScore s, s, now⟩,
       cacheSet c (cacheKey a t) ⟨a, V1.weightedScore s, s, now⟩) := by
  unfold V1.scoreOne
  simp only [hget, if_neg (not_lt.mpr hge), hok]

/-- Helper: the cache key only depends on the record id and the
category. -/
theorem cacheKey_congr (a a2 : Animal) (t : String) (h : a2.mongoId = a.mongoId) :
    cacheKey a2 t = cacheKey a t := by
  unfold cacheKey
  rw [h]

/-- C10: in `getRescueSuitableAnimals` the shape of a returned record
differs between a cache hit and a miss: a live hit carries only the
cached `rescueScore` and no `scoreDetails` (`none`), while a fresh
computation carries the total together with the `scoreDetails`
breakdown (`some`). -/
theorem c10_cache_hit_shape :
    (∀ (t : String) (now : ℚ) (a : Animal) (c : Cache V2.CacheEntry2) (e : V2.CacheEntry2),
      cacheGet c (cacheKey a t) = some e → now - e.timestamp < V2.CACHE_TTL →
      (V2.scoreAnimal t now a c).1 = .ok ⟨a, e.score, none⟩) ∧
    (∀ (t : String) (now : ℚ) (a : Animal) (c : Cache V2.CacheEntry2) (b : String),
      cacheGet c (cacheKey a t) = none → a.breed = some b →
      (V2.scoreAnimal t now a c).1 =
        .ok ⟨a, V2.freshTotal t b a, some (V2.freshScores t b a)⟩) := by
  constructor
  · intro t now a c e hget hlt
    rw [scoreAnimal_hit t now a c e hget hlt]
  · intro t now a c b hget hb
    rw [scoreAnimal_miss t now a c b hget hb]

/-- Witness for C10: a concrete live hit loses `scoreDetails`, a
concrete miss carries it. -/
theorem c10_cache_hit_shape_witness :
    (V2.scoreAnimal "Water" 100 mutatedWaterAnimal [("1-Water", ⟨1, 0⟩)]).1 =
      .ok ⟨mutatedWaterAnimal, 1, none⟩ ∧
    (V2.scoreAnimal "Water" 0 perfectWaterAnimal Cache.empty).1 =
      .ok ⟨perfectWaterAnimal, V2.freshTotal "Water" "lab" perfectWaterAnimal,
        some (V2.freshScores "Water" "lab" perfectWaterAnimal)⟩ :=
  ⟨c10_cache_hit_shape.1 "Water" 100 mutatedWaterAnimal [("1-Water", ⟨1, 0⟩)] ⟨1, 0⟩
      (by decide) (by decide),
   c10_cache_hit_shape.2 "Water" 0 perfectWaterAnimal Cache.empty "lab" rfl rfl⟩

/-- C8: scoring an animal caches its total under `(animalId, category)`
with the computation time.  A second request within the TTL (300000 ms)
returns the cached score unchanged even if every field of the record was
mutated in between (only the id is matched); once the TTL has elapsed
(`TTL ≤ t1 - t0`) the entry is ignored and the score is recomputed from
the current record.  Both implementations are covered. -/
theorem c8_cache_ttl_semantics :
    (∀ (t : String) (a a2 : Animal) (b : String) (c0 : Cache V2.CacheEntry2) (t0 t1 : ℚ),
      cacheGet c0 (cacheKey a t) = none → a.breed = some b → a2.mongoId = a.mongoId →
      (V2.scoreAnimal t t0 a c0).1 =
        .ok ⟨a, V2.freshTotal t b a, some (V2.freshScores t b a)⟩ ∧
      (t1 - t0 < V2.CACHE_TTL →
        V2.scoreAnimal t t1 a2 (V2.scoreAnimal t t0 a c0).2 =
          (.ok ⟨a2, V2.freshTotal t b a, none⟩, (V2.scoreAnimal t t0 a c0).2)) ∧
      (V2.CACHE_TTL ≤ t1 - t0 → ∀ b2, a2.breed = some b2 →
        (V2.scoreAnimal t t1 a2 (V2.scoreAnimal t t0 a c0).2).1 =
          .ok ⟨a2, V2.freshTotal t b2 a2, some (V2.freshScores t b2 a2)⟩)) ∧
    (∀ (t : String) (a a2 : Animal) (c0 : Cache V1.ScoredAnimal1) (t0 t1 : ℚ)
      (s s2 : V1.RescueScores),
      cacheGet c0 (cacheKey a t) = none → V1.calculateRescueScore a t = .ok s →
      a2.mongoId = a.mongoId →
      (V1.scoreOne t t0 a c0).1 = .ok ⟨a, V1.weightedScore s, s, t0⟩ ∧
      (t1 - t0 < V1.CACHE_TTL →
        V1.scoreOne t t1 a2 (V1.scoreOne t t0 a c0).2 =
          (.ok ⟨a, V1.weightedScore s, s, t0⟩, (V1.scoreOne t t0 a c0).2)) ∧
      (V1.CACHE_TTL ≤ t1 - t0 → V1.calculateRescueScore a2 t = .ok s2 →
        (V1.scoreOne t t1 a2 (V1.scoreOne t t0 a c0).2).1 =
          .ok ⟨a2, V1.weightedScore s2, s2, t1⟩)) := by
  constructor
  · intro t a a2 b c0 t0 t1 hget hb hid
    have h1 := scoreAnimal_miss t t0 a c0 b hget hb
    have hkey := cacheKey_congr a a2 t hid
    have h2 : cacheGet (V2.scoreAnimal t t0 a c0).2 (cacheKey a2 t) =
        some ⟨V2.freshTotal t b a, t0⟩ := by
      rw [h1, hkey]
      exact cacheGet_cacheSet_same ..
    refine ⟨by rw [h1], fun hlt => ?_, fun hge b2 hb2 => ?_⟩
    · exact scoreAnimal_hit t t1 a2 (V2.scoreAnimal t t0 a c0).2 ⟨V2.freshTotal t b a, t0⟩
        h2 hlt
    · rw [scoreAnimal_stale t t1 a2 (V2.scoreAnimal t t0 a c0).2 ⟨V2.freshTotal t b a, t0⟩
        b2 h2 hge hb2]
  · intro t a a2 c0 t0 t1 s s2 hget hok hid
    have h1 := scoreOne_miss t t0 a c0 s hget hok
    have hkey := cacheKey_congr a a2 t hid
    have h2 : cacheGet (V1.scoreOne t t0 a c0).2 (cacheKey a2 t) =
        some ⟨a, V1.weightedScore s, s, t0⟩ := by
      rw [h1, hkey]
      exact cacheGet_cacheSet_same ..
    refine ⟨by rw [h1], fun hlt => ?_, fun hge hok2 => ?_⟩
    · exact scoreOne_hit t t1 a2 (V1.scoreOne t t0 a c0).2 ⟨a, V1.weightedScore s, s, t0⟩
        h2 hlt
    · rw [scoreOne_stale t t1 a2 (V1.scoreOne t t0 a c0).2 ⟨a, V1.weightedScore s, s, t0⟩
        s2 h2 hge hok2]

/-- Witness for C8: a concrete animal scored at time 0, then re-requested
at time 100 after mutating every field (same id) still yields the old
score `1`; re-requested at time 300000 (TTL elapsed) it is rescored from
the mutated record, yielding `0.14`. -/
theorem c8_cache_ttl_semantics_witness :
    (V2.scoreAnimal "Water" 0 perfectWaterAnimal Cache.empty).1 =
      .ok ⟨perfectWaterAnimal, V2.freshTotal "Water" "lab" perfectWaterAnimal,
        some (V2.freshScores "Water" "lab" perfectWaterAnimal)⟩ ∧
    V2.scoreAnimal "Water" 100 mutatedWaterAnimal
        (V2.scoreAnimal "Water" 0 perfectWaterAnimal Cache.empty).2 =
      (.ok ⟨mutatedWaterAnimal, V2.freshTotal "Water" "lab" perfectWaterAnimal, none⟩,
       (V2.scoreAnimal "Water" 0 perfectWaterAnimal Cache.empty).2) ∧
    (V2.scoreAnimal "Water" 300000 mutatedWaterAnimal
        (V2.scoreAnimal "Water" 0 perfectWaterAnimal Cache.empty).2).1 =
      .ok ⟨mutatedWaterAnimal, V2.freshTotal "Water" "poodle" mutatedWaterAnimal,
        some (V2.freshScores "Water" "poodle" mutatedWaterAnimal)⟩ ∧
    V2.freshTotal "Water" "lab" perfectWaterAnimal = 1 ∧
    V2.freshTotal "Water" "poodle" mutatedWaterAnimal = 7/50 :=
  have h := c8_cache_ttl_semantics.1 "Water" perfectWaterAnimal mutatedWaterAnimal "lab"
    Cache.empty 0 100 rfl rfl rfl
  have h2 := c8_cache_ttl_semantics.1 "Water" perfectWaterAnimal mutatedWaterAnimal "lab"
    Cache.empty 0 300000 rfl rfl rfl
  ⟨h.1, h.2.1 (by decide), h2.2.2 (by decide) "poodle" rfl, by decide, by decide⟩

/-- Helper: inserting an element into a list ordered descending by key
prepends it to the equal-key elements (the skipped prefix has strictly
larger keys), so the key-class sublist gains the new element at its
front and is otherwise unchanged. -/
theorem filter_key_orderedInsert {α : Type} (κ : α → ℚ) (v : ℚ) (x : α) (l : List α) :
    (l.orderedInsert (descKey κ) x).filter (fun a => decide (κ a = v)) =
      if κ x = v then x :: l.filter (fun a => decide (κ a = v))
      else l.filter (fun a => decide (κ a = v)) := by
  induction l with
  | nil =>
    by_cases hx : κ x = v <;> simp [List.orderedInsert, List.filter_cons, hx]
  | cons y t ih =>
    unfold List.orderedInsert
    by_cases h : descKey κ x y
    · rw [if_pos h]
      by_cases hx : κ x = v <;> simp [List.filter_cons, hx]
    · rw [if_neg h]
      have hlt : κ x < κ y := not_le.mp h
      by_cases hy : κ y = v
      · have hx : κ x ≠ v := by
          intro e
          rw [e, hy] at hlt
          exact lt_irrefl v hlt
        simp [List.filter_cons, hy, hx, ih]
      · by_cases hx : κ x = v <;> simp [List.filter_cons, hy, hx, ih]

/-- Helper: insertion sort under the descending key order is stable —
every key class of the output is exactly the key class of the input, in
input order. -/
theorem filter_key_insertionSort {α : Type} (κ : α → ℚ) (v : ℚ) (l : List α) :
    (l.insertionSort (descKey κ)).filter (fun a => decide (κ a = v)) =
      l.filter (fun a => decide (κ a = v)) := by
  induction l with
  | nil => rfl
  | cons x t ih =>
    rw [List.insertionSort, filter_key_orderedInsert, ih]
    by_cases hx : κ x = v <;> simp [List.filter_cons, hx]

/-- C6: the final stage of both candidate-retrieval operations returns
exactly the scored animals whose total is `>= 0.6` (a multiset-exact,
inclusive-threshold filter), sorted descending by `rescueScore`, with
ties retaining input relative order (stability, phrased as equality of
every score class with the filtered input's score class).  The concrete
example shows `0.59` excluded, `0.6` included, descending order and the
stable tie between the two `0.6` records. -/
theorem c6_threshold_filter_sort :
    (∀ xs : List V2.ScoredAnimal2,
      (V2.filterSort xs).Perm
        (xs.filter fun animal => decide ((6/10 : ℚ) ≤ animal.rescueScore)) ∧
      List.Sorted (descKey fun animal : V2.ScoredAnimal2 => animal.rescueScore)
        (V2.filterSort xs) ∧
      (∀ v : ℚ, (V2.filterSort xs).filter (fun animal => decide (animal.rescueScore = v)) =
        (xs.filter fun animal => decide ((6/10 : ℚ) ≤ animal.rescueScore)).filter
          (fun animal => decide (animal.rescueScore = v)))) ∧
    (∀ xs : List V1.ScoredAnimal1,
      (V1.filterSort1 xs).Perm
        (xs.filter fun animal => jsGeB animal.rescueScore V1.MIN_SCORE) ∧
      List.Sorted (descKey fun animal : V1.ScoredAnimal1 => animal.rescueScore.getD 0)
        (V1.filterSort1 xs) ∧
      (∀ v : ℚ, (V1.filterSort1 xs).filter
          (fun animal => decide (animal.rescueScore.getD 0 = v)) =
        (xs.filter fun animal => jsGeB animal.rescueScore V1.MIN_SCORE).filter
          (fun animal => decide (animal.rescueScore.getD 0 = v)))) ∧
    V2.filterSort [mkScored 1 (59/100), mkScored 2 (6/10), mkScored 3 (7/10), mkScored 4 (6/10)] =
      [mkScored 3 (7/10), mkScored 2 (6/10), mkScored 4 (6/10)] := by
  refine ⟨fun xs => ⟨?_, ?_, fun v => ?_⟩, fun xs => ⟨?_, ?_, fun v => ?_⟩, by decide⟩
  · exact List.perm_insertionSort _ _
  · exact List.sorted_insertionSort _ _
  · exact filter_key_insertionSort _ v _
  · exact List.perm_insertionSort _ _
  · exact List.sorted_insertionSort _ _
  · exact filter_key_insertionSort _ v _
